import Mathlib

/-!
Shallow embedding of the Movie-Watchlist Flask application
(`movie_library/models.py`, `movie_library/forms.py`, `movie_library/routes.py`)
and proofs about its authentication, session and movie-CRUD behaviour.

Conventions of the embedding:
* The Flask session is an association list from string keys to Python values;
  a stored Python `None` and an absent key both read back as `none`, matching
  `session.get(k)`.
* The two MongoDB collections (`user`, `movie`) are Lean lists of records;
  `find_one` is `List.find?` (first match in insertion order), `insert_one`
  appends, `update_one` rewrites the first matching document.
* The external password hasher (passlib `pbkdf2_sha256`) and the signed token
  serializer (itsdangerous `URLSafeTimedSerializer`) are modelled symbolically:
  a digest is an injective tagging of the plaintext, a signature is a perfect
  MAC binding the secret, the payload and the issuance timestamp.  Time is a
  natural number of seconds.
* A handler that can raise an uncaught Python exception returns
  `Except (String × Db)`: the error carries the exception name and the database
  state at the moment of the raise.
-/

namespace MovieWatchlist

/-- Flask session state: keys mapped to Python string-or-None values. -/
abbrev Session := List (String × Option String)

/-- `session.get(k)`: the value stored under `k`, `none` when the key is absent
or holds Python `None`. -/
def sessionGet (s : Session) (k : String) : Option String :=
  match s.find? (fun p => p.1 == k) with
  | some p => p.2
  | none => none

/-- `session[k] = v`: dictionary update (reads through `sessionGet`). -/
def sessionSet (s : Session) (k : String) (v : Option String) : Session :=
  (k, v) :: s

/-- Python truthiness of `session.get(k)`: `None` and the empty string are
falsy, any other string is truthy (used by `if session.get("email"):`). -/
def truthy (v : Option String) : Bool :=
  match v with
  | none => false
  | some str => str != ""

/-- `models.py` `User`: `_id`, `email`, hashed `password`, list of movie ids. -/
structure UserDoc where
  _id : String
  email : String
  password : String
  movies : List String := []
deriving DecidableEq, Repr

/-- `models.py` `Movie`: `_id`, `title`, `director`, `year` plus the optional
extended attributes.  The Python `rating` is a float that the application only
ever writes integer values into (default `0.0`, then `int(...)` in
`rate_movie`), so it is embedded as `Int`; `last_watched` is a timestamp
(`Option Nat`, `none` for the Python `None` default). -/
structure MovieDoc where
  _id : String
  title : String
  director : String
  year : Int
  cast : List String := []
  series : List String := []
  last_watched : Option Nat := none
  rating : Int := 0
  tags : List String := []
  description : Option String := none
  video_link : Option String := none
  image_link : Option String := none
deriving DecidableEq, Repr

/-- The two document collections of `current_app.db`. -/
structure Db where
  user : List UserDoc
  movie : List MovieDoc
deriving DecidableEq, Repr

/-- Mongo `update_one`: rewrite the first document matching the filter. -/
def updateOne {α : Type} (l : List α) (p : α → Bool) (f : α → α) : List α :=
  match l with
  | [] => []
  | a :: t => if p a then f a :: t else a :: updateOne t p f

/-- Symbolic model of passlib `pbkdf2_sha256.hash`: an injective tagging of the
plaintext standing in for the salted one-way digest produced by the external
library. -/
def pbkdf2_sha256_hash (password : String) : String :=
  "$pbkdf2-sha256$" ++ password

/-- Symbolic model of passlib `pbkdf2_sha256.verify`: true iff the digest is
the digest of the plaintext. -/
def pbkdf2_sha256_verify (password digest : String) : Bool :=
  digest == pbkdf2_sha256_hash password

/-- Perfect-MAC model of the itsdangerous signature: the signature binds the
signing secret, the serialized payload and the issuance timestamp; nothing
else produces the same signature value. -/
def sign (secret : String) (payload : Option String) (issuedAt : Nat) :
    String × Option String × Nat :=
  (secret, payload, issuedAt)

/-- A token produced by `URLSafeTimedSerializer.dumps`: `payload = some uid`
encodes the dict with key `user_id` mapped to `uid`; `payload = none` is a
payload from which no user id can be read (malformed serialization or a dict
without that key).  `issuedAt` is the embedded timestamp, `sig` the signature
over secret, payload and timestamp. -/
structure Token where
  payload : Option String
  issuedAt : Nat
  sig : String × Option String × Nat
deriving DecidableEq, Repr

/-- `models.py` `User.get_reset_token` (lines 59-70): serialize
the dict containing the user id and sign it with the app secret.  `now` is
the issuance time recorded by the serializer. -/
def get_reset_token (secret uid : String) (now : Nat) : Token :=
  ⟨some uid, now, sign secret (some uid) now⟩

/-- The guarded body of `models.py` line 85:
`s.loads(token, max_age=1800)["user_id"]` collapsed with the bare `except`
of lines 84-87 — any of bad signature, unreadable payload or
age above 1800 seconds yields `none` instead of an exception. -/
def loads_user_id (secret : String) (tok : Token) (now : Nat) : Option String :=
  if tok.sig = sign secret tok.payload tok.issuedAt ∧ now - tok.issuedAt ≤ 1800 then
    tok.payload
  else
    none

/-- `models.py` `User.verify_reset_token` (lines 72-88): decode the token; on
any decoding failure return `None`; otherwise materialize the user with
`User(**current_app.db.user.find_one({"_id": user_id}))`, which raises
`TypeError` when the lookup returns no document. -/
def verify_reset_token (db : Db) (secret : String) (tok : Token) (now : Nat) :
    Except (String × Db) (Option UserDoc) :=
  match loads_user_id secret tok now with
  | none => .ok none
  | some uid =>
    match db.user.find? (fun u => u._id == uid) with
    | none => .error ("TypeError", db)
    | some u => .ok (some u)

/-- The whitespace characters stripped by Python `str.strip()` (ASCII part:
space, tab, newline, carriage return, vertical tab, form feed). -/
def isPySpace (c : Char) : Bool :=
  c = ' ' || c = '\t' || c = '\n' || c = '\r' || c.toNat = 11 || c.toNat = 12

/-- Leading and trailing whitespace removed from a character list. -/
def stripChars (cs : List Char) : List Char :=
  ((cs.dropWhile isPySpace).reverse.dropWhile isPySpace).reverse

/-- Python `str.strip()` on ASCII input. -/
def pyStrip (s : String) : String :=
  String.mk (stripChars s.toList)

/-- Python `str.lower()` on ASCII input. -/
def pyLower (s : String) : String :=
  String.mk (s.toList.map Char.toLower)

/-- The filter applied to every email field in `forms.py`
(`lambda value: value.strip().lower()`). -/
def emailFilter (value : String) : String :=
  pyLower (pyStrip value)

/-- Split a character list on a separator character, keeping empty pieces
(the behaviour of Python `str.split(sep)`). -/
def splitOnChar (sep : Char) : List Char → List (List Char)
  | [] => [[]]
  | c :: rest =>
    let r := splitOnChar sep rest
    if c = sep then
      [] :: r
    else
      match r with
      | [] => [[c]]
      | h :: t => (c :: h) :: t

/-- Abstraction of the external wtforms `Email()` validator (an out-of-scope
collaborator): a single `@` separating a non-empty local part from a domain
with at least two non-empty dot-separated labels. -/
def emailFormatOk (e : String) : Bool :=
  match splitOnChar '@' e.toList with
  | [lp, dom] =>
    !lp.isEmpty && !dom.isEmpty
      && decide (2 ≤ (splitOnChar '.' dom).length)
      && (splitOnChar '.' dom).all (fun lbl => !lbl.isEmpty)
  | _ => false

/-- `forms.py` `StringListField.process_formdata` (lines 50-60): a textarea is
split on newlines and each line stripped; an absent or empty value yields the
empty list. -/
def stringListProcess (raw : Option String) : List String :=
  match raw with
  | some v =>
    if v != "" then
      (splitOnChar '\n' v.toList).map (fun cs => pyStrip (String.mk cs))
    else []
  | none => []

/-- The submitted data of `forms.py` `RegisterForm` (raw field values). -/
structure RegisterFormInput where
  email : String
  password : String
  confirm_password : String
deriving DecidableEq, Repr

/-- `RegisterForm` validation: `InputRequired` and `Email()` on the filtered
email, `InputRequired` and `Length(min=8)` on the password, `InputRequired`
and `EqualTo("password")` on the confirmation, and `validate_email`
(lines 119-123): reject when a user with the filtered email already exists. -/
def registerFormValidates (db : Db) (f : RegisterFormInput) : Bool :=
  f.email != "" && emailFormatOk (emailFilter f.email)
    && f.password != "" && decide (8 ≤ f.password.length)
    && f.confirm_password != "" && f.confirm_password == f.password
    && (db.user.find? (fun u => u.email == emailFilter f.email)).isNone

/-- The submitted data of `forms.py` `LoginForm`. -/
structure LoginFormInput where
  email : String
  password : String
deriving DecidableEq, Repr

/-- `LoginForm` validation: `InputRequired` and `Email()` on the filtered
email, `InputRequired` on the password. -/
def loginFormValidates (f : LoginFormInput) : Bool :=
  f.email != "" && emailFormatOk (emailFilter f.email) && f.password != ""

/-- The submitted data of `forms.py` `RequestResetForm`. -/
structure RequestResetFormInput where
  email : String
deriving DecidableEq, Repr

/-- `RequestResetForm` validation: `InputRequired` and `Email()` on the
filtered email. -/
def requestResetFormValidates (f : RequestResetFormInput) : Bool :=
  f.email != "" && emailFormatOk (emailFilter f.email)

/-- The submitted data of `forms.py` `UpdateAccountForm`. -/
structure UpdateAccountFormInput where
  email : String
  password : String
deriving DecidableEq, Repr

/-- `UpdateAccountForm` validation: field validators plus `validate_email`
(lines 193-200): when the filtered email differs from the session email,
reject if some user already has it. -/
def updateAccountFormValidates (s : Session) (db : Db) (f : UpdateAccountFormInput) : Bool :=
  f.email != "" && emailFormatOk (emailFilter f.email) && f.password != ""
    && (sessionGet s "email" == some (emailFilter f.email)
        || (db.user.find? (fun u => u.email == emailFilter f.email)).isNone)

/-- The submitted data of `forms.py` `MovieForm`; `year` is the
`IntegerField.data`, `none` when the field was absent or not coercible. -/
structure MovieFormInput where
  title : String
  director : String
  year : Option Int
deriving DecidableEq, Repr

/-- `MovieForm` base validation on a present year: `InputRequired` on title
and director, `NumberRange(min=1878)` on the year. -/
def movieFormBaseOk (title director : String) (year : Int) : Bool :=
  title != "" && director != "" && decide (1878 ≤ year)

/-- The submitted data of `forms.py` `ExtendedMovieForm`: the base movie
fields plus raw textarea values for the three string-list fields and the
optional description and links. -/
structure ExtendedMovieFormInput where
  title : String
  director : String
  year : Option Int
  cast_raw : Option String
  series_raw : Option String
  tags_raw : Option String
  description : Option String
  video_link : Option String
  image_link : Option String
deriving DecidableEq, Repr

/-- A handler response: a redirect to a blueprint endpoint (with its view
arguments) or a rendered template. -/
inductive Response where
  | redirect (endpoint : String) (args : List String)
  | render (template : String)
deriving DecidableEq, Repr

/-- A flashed message: text and category. -/
abbrev Flash := String × String

/-- The observable outcome of a handler that returned normally: the response,
the flashed messages of this request, the session and database afterwards,
and the recipients of any reset mails sent. -/
structure HRes where
  resp : Response
  flashes : List Flash
  session : Session
  db : Db
  mails : List String
deriving DecidableEq, Repr

/-- An uncaught Python exception: its name and the database state when it was
raised. -/
abbrev PyErr := String × Db

/-- A route body: session and database in, normal outcome or uncaught
exception out. -/
abbrev Handler := Session → Db → Except PyErr HRes

/-- `routes.py` `login_required` (lines 26-46): run the wrapped route only
when the session holds an email; otherwise redirect to the login endpoint
without touching anything. -/
def login_required (route : Handler) : Handler :=
  fun s db =>
    if sessionGet s "email" = none then
      .ok ⟨.redirect ".login" [], [], s, db, []⟩
    else
      route s db

/-- Body of `routes.py` `index` (lines 49-67): look up the session user by
email (`User(**user_data)` raises on a missing document), collect the movies
and render. -/
def index_body : Handler :=
  fun s db =>
    match sessionGet s "email" with
    | none => .error ("KeyError", db)
    | some e =>
      match db.user.find? (fun u => u.email == e) with
      | none => .error ("TypeError", db)
      | some _ => .ok ⟨.render "index.html", [], s, db, []⟩

/-- `routes.py` `index`: the body behind the `login_required` gate. -/
def index : Handler :=
  login_required index_body

/-- `routes.py` `register` (lines 70-100): redirect home when already logged
in; on a valid submission insert the user with a fresh id (`newId` stands for
`uuid.uuid4().hex`) and the hashed password, flash success and redirect to
login; otherwise render the form.  `input = none` is a GET request. -/
def register (s : Session) (db : Db) (input : Option RegisterFormInput)
    (newId : String) : HRes :=
  if truthy (sessionGet s "email") then
    ⟨.redirect ".index" [], [], s, db, []⟩
  else
    match input with
    | some f =>
      if registerFormValidates db f then
        let user : UserDoc :=
          ⟨newId, emailFilter f.email, pbkdf2_sha256_hash f.password, []⟩
        ⟨.redirect ".login" [], [("User registered successfully!", "success")],
          s, { db with user := db.user ++ [user] }, []⟩
      else
        ⟨.render "register.html", [], s, db, []⟩
    | none => ⟨.render "register.html", [], s, db, []⟩

/-- `routes.py` `login` (lines 102-133): redirect home when already logged
in; on a valid submission look the user up by filtered email — if absent,
flash the generic failure and redirect back to login; if the password
verifies, store identity in the session and redirect home; otherwise flash
the generic failure and render the form. -/
def login (s : Session) (db : Db) (input : Option LoginFormInput) : HRes :=
  if truthy (sessionGet s "email") then
    ⟨.redirect ".index" [], [], s, db, []⟩
  else
    match input with
    | some f =>
      if loginFormValidates f then
        match db.user.find? (fun u => u.email == emailFilter f.email) with
        | none =>
          ⟨.redirect ".login" [],
            [("Login failed. Please check your email and password.", "danger")],
            s, db, []⟩
        | some u =>
          if pbkdf2_sha256_verify f.password u.password then
            ⟨.redirect ".index" [], [],
              sessionSet (sessionSet s "user_id" (some u._id)) "email" (some u.email),
              db, []⟩
          else
            ⟨.render "login.html",
              [("Login failed. Please check your email and password.", "danger")],
              s, db, []⟩
      else
        ⟨.render "login.html", [], s, db, []⟩
    | none => ⟨.render "login.html", [], s, db, []⟩

/-- Body of `routes.py` `account` (lines 136-166): on a valid submission load
the session user, re-verify the current password, then update the stored and
session email in lockstep; on a wrong password flash an error; otherwise
render (GET pre-fills the form). -/
def account_body (input : Option UpdateAccountFormInput) : Handler :=
  fun s db =>
    match input with
    | some f =>
      if updateAccountFormValidates s db f then
        match sessionGet s "email" with
        | none => .error ("KeyError", db)
        | some e =>
          match db.user.find? (fun u => u.email == e) with
          | none => .error ("TypeError", db)
          | some u =>
            if pbkdf2_sha256_verify f.password u.password then
              let users := updateOne db.user (fun w => w._id == u._id)
                (fun w => { w with email := emailFilter f.email })
              .ok ⟨.redirect ".account" [],
                [("Your account has been updated!", "success")],
                sessionSet s "email" (some (emailFilter f.email)),
                { db with user := users }, []⟩
            else
              .ok ⟨.render "account.html",
                [("Incorrect password. Please try again.", "danger")], s, db, []⟩
      else
        .ok ⟨.render "account.html", [], s, db, []⟩
    | none => .ok ⟨.render "account.html", [], s, db, []⟩

/-- `routes.py` `account`: the body behind the `login_required` gate. -/
def account (input : Option UpdateAccountFormInput) : Handler :=
  login_required (account_body input)

/-- `routes.py` `logout` (lines 168-180): remember the theme, clear the
session, restore the theme, redirect to login. -/
def logout (s : Session) (db : Db) : HRes :=
  ⟨.redirect ".login" [], [], [("theme", sessionGet s "theme")], db, []⟩

/-- `routes.py` `reset_request` (lines 203-219): redirect home when logged
in; on a valid submission look the user up and send the reset mail only when
found, then unconditionally flash the confirmation and redirect to login. -/
def reset_request (s : Session) (db : Db) (input : Option RequestResetFormInput) : HRes :=
  if truthy (sessionGet s "email") then
    ⟨.redirect ".index" [], [], s, db, []⟩
  else
    match input with
    | some f =>
      if requestResetFormValidates f then
        let mails :=
          match db.user.find? (fun u => u.email == emailFilter f.email) with
          | some u => [u.email]
          | none => []
        ⟨.redirect ".login" [],
          [("An email has been sent with instructions to reset your password.", "info")],
          s, db, mails⟩
      else
        ⟨.render "reset_request.html", [], s, db, []⟩
    | none => ⟨.render "reset_request.html", [], s, db, []⟩

/-- Body of `routes.py` `add_movie` (lines 246-277): on a valid submission
insert the movie with a fresh id (`newId` stands for `uuid.uuid4().hex`),
push its id onto the session user's list and redirect to the confirmation
page; otherwise render the form. -/
def add_movie_body (input : Option MovieFormInput) (newId : String) : Handler :=
  fun s db =>
    match input with
    | some f =>
      match f.year with
      | some y =>
        if movieFormBaseOk f.title f.director y then
          let mv : MovieDoc :=
            { _id := newId, title := f.title, director := f.director, year := y }
          match sessionGet s "user_id" with
          | none => .error ("KeyError", db)
          | some uid =>
            let users := updateOne db.user (fun u => u._id == uid)
              (fun u => { u with movies := u.movies ++ [newId] })
            .ok ⟨.redirect ".movie_added" [newId], [], s,
              { user := users, movie := db.movie ++ [mv] }, []⟩
        else
          .ok ⟨.render "new_movie.html", [], s, db, []⟩
      | none => .ok ⟨.render "new_movie.html", [], s, db, []⟩
    | none => .ok ⟨.render "new_movie.html", [], s, db, []⟩

/-- `routes.py` `add_movie`: the body behind the `login_required` gate. -/
def add_movie (input : Option MovieFormInput) (newId : String) : Handler :=
  login_required (add_movie_body input newId)

/-- `routes.py` `movie_added` (lines 280-292, no login gate):
`Movie(**current_app.db.movie.find_one({"_id": _id}))` raises `TypeError`
when the id is absent; otherwise render the confirmation. -/
def movie_added (id : String) : Handler :=
  fun s db =>
    match db.movie.find? (fun m => m._id == id) with
    | none => .error ("TypeError", db)
    | some _ => .ok ⟨.render "movie_added.html", [], s, db, []⟩

/-- The field reassignment block of `edit_movie` (`routes.py` lines 310-318):
the nine form-backed fields are overwritten on the loaded record, everything
else is carried over. -/
def editApply (m : MovieDoc) (f : ExtendedMovieFormInput) (y : Int) : MovieDoc :=
  { m with
    title := f.title,
    director := f.director,
    year := y,
    cast := stringListProcess f.cast_raw,
    series := stringListProcess f.series_raw,
    tags := stringListProcess f.tags_raw,
    description := f.description,
    video_link := f.video_link,
    image_link := f.image_link }

/-- Body of `routes.py` `edit_movie` (lines 295-323): dereference the movie
(raising `TypeError` when absent); on a valid submission reassign the nine
form-backed fields of the loaded record and write the whole record back,
then redirect to the details page; otherwise render the form. -/
def edit_movie_body (id : String) (input : Option ExtendedMovieFormInput) : Handler :=
  fun s db =>
    match db.movie.find? (fun m => m._id == id) with
    | none => .error ("TypeError", db)
    | some m =>
      match input with
      | some f =>
        match f.year with
        | some y =>
          if movieFormBaseOk f.title f.director y then
            let movies := updateOne db.movie (fun w => w._id == m._id)
              (fun _ => editApply m f y)
            .ok ⟨.redirect ".movie" [m._id], [], s, { db with movie := movies }, []⟩
          else
            .ok ⟨.render "movie_form.html", [], s, db, []⟩
        | none => .ok ⟨.render "movie_form.html", [], s, db, []⟩
      | none => .ok ⟨.render "movie_form.html", [], s, db, []⟩

/-- `routes.py` `edit_movie`: the body behind the `login_required` gate. -/
def edit_movie (id : String) (input : Option ExtendedMovieFormInput) : Handler :=
  login_required (edit_movie_body id input)

/-- `routes.py` `movie` (lines 326-342, no login gate): dereference the movie
(raising `TypeError` when absent) and render the details page. -/
def movie (id : String) : Handler :=
  fun s db =>
    match db.movie.find? (fun m => m._id == id) with
    | none => .error ("TypeError", db)
    | some _ => .ok ⟨.render "movie_details.html", [], s, db, []⟩

/-- ASCII digit test for the `int()` model. -/
def isAsciiDigit (c : Char) : Bool :=
  decide ('0' ≤ c) && decide (c ≤ '9')

/-- Tail of a Python integer literal after its first digit: digits, with a
single underscore allowed only between two digits. -/
def digitsGo : List Char → Bool
  | [] => true
  | c :: rest =>
    if c = '_' then
      match rest with
      | c2 :: rest2 => isAsciiDigit c2 && digitsGo rest2
      | [] => false
    else
      isAsciiDigit c && digitsGo rest

/-- A non-empty run of ASCII digits with single underscores between digits
(the digit part accepted by Python `int`). -/
def validDigits : List Char → Bool
  | [] => false
  | c :: rest => isAsciiDigit c && digitsGo rest

/-- The numeric value of a digit run, ignoring underscores. -/
def digitsValue (cs : List Char) : Nat :=
  cs.foldl (fun acc c => if c = '_' then acc else acc * 10 + (c.toNat - 48)) 0

/-- Model of Python `int(str)` on ASCII input: strip surrounding whitespace,
allow one sign, then require a valid digit run; `none` models the raised
`ValueError`. -/
def pyInt (str : String) : Option Int :=
  match stripChars str.toList with
  | '+' :: rest => if validDigits rest then some (Int.ofNat (digitsValue rest)) else none
  | '-' :: rest => if validDigits rest then some (-(Int.ofNat (digitsValue rest))) else none
  | cs => if validDigits cs then some (Int.ofNat (digitsValue cs)) else none

/-- Body of `routes.py` `rate_movie` (lines 345-360):
`rating = int(request.args.get("rating"))` raises `TypeError` when the query
parameter is absent and `ValueError` when it is not an integer literal; on
success the rating is stored unconditionally and the request redirects to the
details page. -/
def rate_movie_body (id : String) (ratingParam : Option String) : Handler :=
  fun s db =>
    match ratingParam with
    | none => .error ("TypeError", db)
    | some str =>
      match pyInt str with
      | none => .error ("ValueError", db)
      | some r =>
        let movies := updateOne db.movie (fun m => m._id == id)
          (fun m => { m with rating := r })
        .ok ⟨.redirect ".movie" [id], [], s, { db with movie := movies }, []⟩

/-- `routes.py` `rate_movie`: the body behind the `login_required` gate. -/
def rate_movie (id : String) (ratingParam : Option String) : Handler :=
  login_required (rate_movie_body id ratingParam)

/-- Body of `routes.py` `watch_today` (lines 363-379): set `last_watched` to
the current date and redirect to the details page. -/
def watch_today_body (id : String) (today : Nat) : Handler :=
  fun s db =>
    let movies := updateOne db.movie (fun m => m._id == id)
      (fun m => { m with last_watched := some today })
    .ok ⟨.redirect ".movie" [id], [], s, { db with movie := movies }, []⟩

/-- `routes.py` `watch_today`: the body behind the `login_required` gate. -/
def watch_today (id : String) (today : Nat) : Handler :=
  login_required (watch_today_body id today)

/-! Helper lemmas shared by the claim proofs. -/

/-- A member satisfying the predicate guarantees `find?` returns a hit that
satisfies it. -/
theorem exists_find?_of_mem {α : Type} (p : α → Bool) (l : List α) (a : α)
    (ha : a ∈ l) (hp : p a = true) : ∃ b, l.find? p = some b ∧ p b = true := by
  induction l with
  | nil => cases ha
  | cons x t ih =>
    cases hx : p x with
    | true => exact ⟨x, by simp [List.find?, hx], hx⟩
    | false =>
      cases ha with
      | head => rw [hp] at hx; cases hx
      | tail _ ht =>
        obtain ⟨b, hb, hpb⟩ := ih ht
        exact ⟨b, by simp [List.find?, hx, hb], hpb⟩

/-- C1: for every stored user `uid`, verifying a token issued for `uid`
immediately after issuance returns that user; a signature that does not match
the process secret, an unreadable payload, or an age above 1800 seconds each
make verification return `None` rather than raise; and a token altered away
from the issued one while keeping its signature no longer verifies. -/
theorem reset_token_roundtrip_and_rejection
    (db : Db) (secret uid : String) (now now2 : Nat) (u : UserDoc) (tok : Token) :
    (u ∈ db.user →
      ∃ w, verify_reset_token db secret (get_reset_token secret u._id now) now
          = .ok (some w) ∧ w._id = u._id)
    ∧ (tok.sig ≠ sign secret tok.payload tok.issuedAt →
        verify_reset_token db secret tok now2 = .ok none)
    ∧ (tok.payload = none → verify_reset_token db secret tok now2 = .ok none)
    ∧ (1800 < now2 - tok.issuedAt →
        verify_reset_token db secret tok now2 = .ok none)
    ∧ (tok.sig = (get_reset_token secret uid now).sig →
        tok ≠ get_reset_token secret uid now →
        verify_reset_token db secret tok now2 = .ok none) := by
  refine ⟨?_, ?_, ?_, ?_, ?_⟩
  · intro hu
    have hload : loads_user_id secret (get_reset_token secret u._id now) now
        = some u._id := by
      simp [loads_user_id, get_reset_token]
    obtain ⟨w, hw, hpw⟩ :=
      exists_find?_of_mem (fun w => w._id == u._id) db.user u hu (by simp)
    exact ⟨w, by simp [verify_reset_token, hload, hw], eq_of_beq hpw⟩
  · intro hsig
    have hload : loads_user_id secret tok now2 = none := by
      unfold loads_user_id
      rw [if_neg]
      exact fun h => hsig h.1
    simp [verify_reset_token, hload]
  · intro hpay
    have hload : loads_user_id secret tok now2 = none := by
      unfold loads_user_id
      split
      · exact hpay
      · rfl
    simp [verify_reset_token, hload]
  · intro hexp
    have hload : loads_user_id secret tok now2 = none := by
      unfold loads_user_id
      rw [if_neg]
      exact fun h => absurd h.2 (by omega)
    simp [verify_reset_token, hload]
  · intro hsig hne
    have hload : loads_user_id secret tok now2 = none := by
      unfold loads_user_id
      rw [if_neg]
      intro hcond
      apply hne
      have h1 : sign secret tok.payload tok.issuedAt = sign secret (some uid) now := by
        rw [← hcond.1, hsig]; rfl
      have h2 : tok.payload = some uid ∧ tok.issuedAt = now := by
        simpa [sign, Prod.ext_iff] using h1
      cases tok with
      | mk p i g =>
        simp only [get_reset_token]
        simp only at h2 hsig
        rw [h2.1, h2.2]
        rw [hsig]
        rfl
    simp [verify_reset_token, hload]

/-- Witness for C1: round trip on a one-user store at issuance time, and a
token with an unreadable payload, a foreign signature and an age of 2000
seconds is rejected with `None`. -/
theorem reset_token_roundtrip_and_rejection_witness :
    ((⟨"u1", "a@x.com", "d", []⟩ : UserDoc) ∈ (⟨[⟨"u1", "a@x.com", "d", []⟩], []⟩ : Db).user)
    ∧ (∃ w, verify_reset_token ⟨[⟨"u1", "a@x.com", "d", []⟩], []⟩ "k"
        (get_reset_token "k" "u1" 100) 100 = .ok (some w) ∧ w._id = "u1")
    ∧ verify_reset_token ⟨[⟨"u1", "a@x.com", "d", []⟩], []⟩ "k"
        ⟨none, 0, ("k", some "u1", 100)⟩ 2000 = .ok none := by
  refine ⟨by decide, ?_, ?_⟩
  · exact (reset_token_roundtrip_and_rejection ⟨[⟨"u1", "a@x.com", "d", []⟩], []⟩
      "k" "u1" 100 100 ⟨"u1", "a@x.com", "d", []⟩
      ⟨none, 0, ("k", some "u1", 100)⟩).1 (by decide)
  · exact (reset_token_roundtrip_and_rejection ⟨[⟨"u1", "a@x.com", "d", []⟩], []⟩
      "k" "u1" 100 2000 ⟨"u1", "a@x.com", "d", []⟩
      ⟨none, 0, ("k", some "u1", 100)⟩).2.2.1 rfl

/-- C2: with no email in the session, `login_required` returns the redirect
to the login endpoint without running the wrapped body (the result is the
fixed redirect, independent of the route), hence each protected route
(index, account, add, edit, rate, watch) redirects; with an identity present
the gate is transparent and the body runs. -/
theorem protected_routes_redirect_when_anonymous
    (route : Handler) (s : Session) (db : Db)
    (uaf : Option UpdateAccountFormInput) (mf : Option MovieFormInput)
    (ef : Option ExtendedMovieFormInput) (newId id : String)
    (ratingParam : Option String) (today : Nat) :
    (sessionGet s "email" = none →
      login_required route s db = .ok ⟨.redirect ".login" [], [], s, db, []⟩
      ∧ index s db = .ok ⟨.redirect ".login" [], [], s, db, []⟩
      ∧ account uaf s db = .ok ⟨.redirect ".login" [], [], s, db, []⟩
      ∧ add_movie mf newId s db = .ok ⟨.redirect ".login" [], [], s, db, []⟩
      ∧ edit_movie id ef s db = .ok ⟨.redirect ".login" [], [], s, db, []⟩
      ∧ rate_movie id ratingParam s db = .ok ⟨.redirect ".login" [], [], s, db, []⟩
      ∧ watch_today id today s db = .ok ⟨.redirect ".login" [], [], s, db, []⟩)
    ∧ (sessionGet s "email" ≠ none → login_required route s db = route s db) := by
  constructor
  · intro h
    refine ⟨?_, ?_, ?_, ?_, ?_, ?_, ?_⟩ <;>
      simp [login_required, index, account, add_movie, edit_movie, rate_movie,
        watch_today, h]
  · intro h
    simp [login_required, h]

/-- Witness for C2: on the empty session `index` redirects to login, and with
an identity present `login_required` hands through to the body. -/
theorem protected_routes_redirect_when_anonymous_witness :
    (sessionGet [] "email" = none
      ∧ index [] ⟨[], []⟩ = .ok ⟨.redirect ".login" [], [], [], ⟨[], []⟩, []⟩)
    ∧ (sessionGet [("email", some "a@x.com")] "email" ≠ none
      ∧ login_required index_body [("email", some "a@x.com")] ⟨[], []⟩
        = index_body [("email", some "a@x.com")] ⟨[], []⟩) := by
  constructor
  · exact ⟨rfl, ((protected_routes_redirect_when_anonymous index_body [] ⟨[], []⟩
      none none none "n" "m" none 0).1 rfl).2.1⟩
  · exact ⟨by decide, (protected_routes_redirect_when_anonymous index_body
      [("email", some "a@x.com")] ⟨[], []⟩ none none none "n" "m" none 0).2
      (by decide)⟩

/-- The symbolic digest is never the plaintext itself (length mismatch). -/
theorem pbkdf2_hash_ne_plaintext (password : String) :
    pbkdf2_sha256_hash password ≠ password := by
  intro h
  have hlen := congrArg String.length h
  have h15 : ("$pbkdf2-sha256$" : String).length = 15 := rfl
  rw [pbkdf2_sha256_hash, String.length_append, h15] at hlen
  omega

/-- C3: a registration that passes validation inserts exactly one user record
holding the filtered email and the one-way digest of the password (never the
plaintext), carrying the fresh opaque id, flashes success and redirects to
login; the session is returned untouched, so registration does not
authenticate. -/
theorem register_valid_input_behaviour
    (s : Session) (db : Db) (f : RegisterFormInput) (newId : String)
    (hanon : truthy (sessionGet s "email") = false)
    (hvalid : registerFormValidates db f = true) :
    register s db (some f) newId =
      ⟨.redirect ".login" [], [("User registered successfully!", "success")], s,
        ⟨db.user ++ [⟨newId, emailFilter f.email, pbkdf2_sha256_hash f.password, []⟩],
          db.movie⟩, []⟩
    ∧ pbkdf2_sha256_hash f.password ≠ f.password := by
  refine ⟨?_, pbkdf2_hash_ne_plaintext f.password⟩
  simp [register, hanon, hvalid]

/-- Witness for C3: registering `A@X.com` with password `password1` on an
empty store inserts the lowercased email and the digest, and redirects to
login with the session untouched. -/
theorem register_valid_input_behaviour_witness :
    truthy (sessionGet [] "email") = false
    ∧ registerFormValidates ⟨[], []⟩ ⟨"A@X.com", "password1", "password1"⟩ = true
    ∧ register [] ⟨[], []⟩ (some ⟨"A@X.com", "password1", "password1"⟩) "u1" =
        ⟨.redirect ".login" [], [("User registered successfully!", "success")], [],
          ⟨[⟨"u1", "a@x.com", "$pbkdf2-sha256$password1", []⟩], []⟩, []⟩
    ∧ "$pbkdf2-sha256$password1" ≠ "password1" := by
  refine ⟨rfl, by decide, ?_⟩
  have h := register_valid_input_behaviour [] ⟨[], []⟩
    ⟨"A@X.com", "password1", "password1"⟩ "u1" rfl (by decide)
  exact h

/-- C4: whenever a login submission fails — whether because no user has the
given email or because the stored digest does not verify — the flashed
message is the same string with the same category in both runs. -/
theorem login_failure_message_uniform
    (s1 s2 : Session) (db1 db2 : Db) (f1 f2 : LoginFormInput) (u : UserDoc)
    (hanon1 : truthy (sessionGet s1 "email") = false)
    (hanon2 : truthy (sessionGet s2 "email") = false)
    (hvalid1 : loginFormValidates f1 = true)
    (hvalid2 : loginFormValidates f2 = true)
    (hnouser : db1.user.find? (fun w => w.email == emailFilter f1.email) = none)
    (hfound : db2.user.find? (fun w => w.email == emailFilter f2.email) = some u)
    (hbadpw : pbkdf2_sha256_verify f2.password u.password = false) :
    (login s1 db1 (some f1)).flashes = (login s2 db2 (some f2)).flashes
    ∧ (login s1 db1 (some f1)).flashes
        = [("Login failed. Please check your email and password.", "danger")] := by
  simp [login, hanon1, hanon2, hvalid1, hvalid2, hnouser, hfound, hbadpw]

/-- Witness for C4: an unknown email on an empty store and a wrong password
against a stored digest flash the identical message. -/
theorem login_failure_message_uniform_witness :
    (⟨[], []⟩ : Db).user.find? (fun w => w.email == emailFilter "a@x.com") = none
    ∧ (⟨[⟨"u1", "b@x.com", "$pbkdf2-sha256$rightpw", []⟩], []⟩ : Db).user.find?
        (fun w => w.email == emailFilter "b@x.com")
        = some ⟨"u1", "b@x.com", "$pbkdf2-sha256$rightpw", []⟩
    ∧ pbkdf2_sha256_verify "wrongpw" "$pbkdf2-sha256$rightpw" = false
    ∧ (login [] ⟨[], []⟩ (some ⟨"a@x.com", "zzz"⟩)).flashes
        = (login [] ⟨[⟨"u1", "b@x.com", "$pbkdf2-sha256$rightpw", []⟩], []⟩
            (some ⟨"b@x.com", "wrongpw"⟩)).flashes := by
  refine ⟨by decide, by decide, by decide, ?_⟩
  exact (login_failure_message_uniform [] [] ⟨[], []⟩
    ⟨[⟨"u1", "b@x.com", "$pbkdf2-sha256$rightpw", []⟩], []⟩
    ⟨"a@x.com", "zzz"⟩ ⟨"b@x.com", "wrongpw"⟩
    ⟨"u1", "b@x.com", "$pbkdf2-sha256$rightpw", []⟩
    rfl rfl (by decide) (by decide) (by decide) (by decide) (by decide)).1

/-- C5: every anonymous reset request that passes validation flashes the same
confirmation and redirects to login, for every database — in particular
independently of whether the submitted email matches a stored user. -/
theorem reset_request_uniform_confirmation
    (s : Session) (db : Db) (f : RequestResetFormInput)
    (hanon : truthy (sessionGet s "email") = false)
    (hvalid : requestResetFormValidates f = true) :
    (reset_request s db (some f)).flashes
        = [("An email has been sent with instructions to reset your password.", "info")]
    ∧ (reset_request s db (some f)).resp = .redirect ".login" [] := by
  simp [reset_request, hanon, hvalid]

/-- Witness for C5: an unregistered and a registered email produce the same
confirmation flash and redirect. -/
theorem reset_request_uniform_confirmation_witness :
    requestResetFormValidates ⟨"a@x.com"⟩ = true
    ∧ (reset_request [] ⟨[], []⟩ (some ⟨"a@x.com"⟩)).flashes
        = (reset_request [] ⟨[⟨"u1", "a@x.com", "d", []⟩], []⟩ (some ⟨"a@x.com"⟩)).flashes
    ∧ (reset_request [] ⟨[], []⟩ (some ⟨"a@x.com"⟩)).resp = .redirect ".login" [] := by
  refine ⟨by decide, ?_, ?_⟩
  · exact (reset_request_uniform_confirmation [] ⟨[], []⟩ ⟨"a@x.com"⟩ rfl
      (by decide)).1.trans
      (reset_request_uniform_confirmation [] ⟨[⟨"u1", "a@x.com", "d", []⟩], []⟩
        ⟨"a@x.com"⟩ rfl (by decide)).1.symm
  · exact (reset_request_uniform_confirmation [] ⟨[], []⟩ ⟨"a@x.com"⟩ rfl
      (by decide)).2

/-- C6: after logout the session holds no `user_id` and no `email`, the theme
reads back exactly as before, the response is the redirect to login, and no
key other than `theme` survives. -/
theorem logout_clears_identity_preserves_theme (s : Session) (db : Db) :
    sessionGet (logout s db).session "user_id" = none
    ∧ sessionGet (logout s db).session "email" = none
    ∧ sessionGet (logout s db).session "theme" = sessionGet s "theme"
    ∧ (logout s db).resp = .redirect ".login" []
    ∧ (∀ k : String, k ≠ "theme" → sessionGet (logout s db).session k = none) := by
  refine ⟨rfl, rfl, rfl, rfl, ?_⟩
  intro k hk
  have hb : ("theme" == k) = false := by
    cases h : ("theme" == k) with
    | true => exact absurd (eq_of_beq h) (fun he => hk he.symm)
    | false => rfl
  simp [logout, sessionGet, List.find?, hb]

/-- Witness for C6: a session with identity and a dark theme keeps exactly
the dark theme across logout, and an unrelated key does not survive. -/
theorem logout_clears_identity_preserves_theme_witness :
    sessionGet (logout [("user_id", some "u1"), ("email", some "a@x.com"),
        ("theme", some "dark"), ("other", some "x")] ⟨[], []⟩).session "user_id" = none
    ∧ sessionGet (logout [("user_id", some "u1"), ("email", some "a@x.com"),
        ("theme", some "dark"), ("other", some "x")] ⟨[], []⟩).session "theme"
        = some "dark"
    ∧ ("other" : String) ≠ "theme"
    ∧ sessionGet (logout [("user_id", some "u1"), ("email", some "a@x.com"),
        ("theme", some "dark"), ("other", some "x")] ⟨[], []⟩).session "other" = none := by
  have h := logout_clears_identity_preserves_theme
    [("user_id", some "u1"), ("email", some "a@x.com"),
      ("theme", some "dark"), ("other", some "x")] ⟨[], []⟩
  exact ⟨h.1, h.2.2.1.trans (by decide), by decide, h.2.2.2.2 "other" (by decide)⟩

/-- C7: email handling is case-insensitive end to end — registering an email
(in any letter case) stores its lowercased form, and a later login whose
submitted email has the same normalization, with the correct password,
succeeds: it redirects home and authenticates the session. -/
theorem login_after_register_case_insensitive
    (s : Session) (db : Db) (f : RegisterFormInput) (newId e2 : String)
    (hanon : truthy (sessionGet s "email") = false)
    (hvalid : registerFormValidates db f = true)
    (hcase : emailFilter e2 = emailFilter f.email)
    (he2 : e2 ≠ "") :
    (login s (register s db (some f) newId).db (some ⟨e2, f.password⟩)).resp
        = .redirect ".index" []
    ∧ sessionGet (login s (register s db (some f) newId).db
        (some ⟨e2, f.password⟩)).session "email" = some (emailFilter f.email)
    ∧ sessionGet (login s (register s db (some f) newId).db
        (some ⟨e2, f.password⟩)).session "user_id" = some newId := by
  have hreg : (register s db (some f) newId).db =
      ⟨db.user ++ [⟨newId, emailFilter f.email, pbkdf2_sha256_hash f.password, []⟩],
        db.movie⟩ := by
    simp [register, hanon, hvalid]
  rw [hreg]
  simp only [registerFormValidates, Bool.and_eq_true] at hvalid
  obtain ⟨⟨⟨⟨⟨⟨hne, hfmt⟩, hpw⟩, hlen⟩, hcf⟩, hcfeq⟩, hnone⟩ := hvalid
  have hfind : (db.user ++
      [⟨newId, emailFilter f.email, pbkdf2_sha256_hash f.password, []⟩] :
        List UserDoc).find? (fun u => u.email == emailFilter e2)
      = some ⟨newId, emailFilter f.email, pbkdf2_sha256_hash f.password, []⟩ := by
    rw [hcase, List.find?_append]
    rw [Option.isNone_iff_eq_none] at hnone
    rw [hnone]
    simp [List.find?]
  have hpwne : f.password ≠ "" := by
    intro h0
    rw [h0] at hlen
    simp at hlen
  have hvlogin : loginFormValidates ⟨e2, f.password⟩ = true := by
    simp [loginFormValidates, hcase, hfmt, he2, hpwne]
  have key : login s (⟨db.user ++
      [⟨newId, emailFilter f.email, pbkdf2_sha256_hash f.password, []⟩],
        db.movie⟩ : Db) (some ⟨e2, f.password⟩)
      = ⟨.redirect ".index" [], [],
          ("email", some (emailFilter f.email)) :: ("user_id", some newId) :: s,
          ⟨db.user ++ [⟨newId, emailFilter f.email, pbkdf2_sha256_hash f.password, []⟩],
            db.movie⟩, []⟩ := by
    simp [login, hanon, hvlogin, hfind, pbkdf2_sha256_verify, sessionSet]
  rw [key]
  exact ⟨rfl, rfl, rfl⟩

/-- Witness for C7: register `A@X.Com`, log in with `a@x.com` and the same
password; the session becomes authenticated for the stored user. -/
theorem login_after_register_case_insensitive_witness :
    registerFormValidates ⟨[], []⟩ ⟨"A@X.Com", "password1", "password1"⟩ = true
    ∧ emailFilter "a@x.com" = emailFilter "A@X.Com"
    ∧ (login [] (register [] ⟨[], []⟩ (some ⟨"A@X.Com", "password1", "password1"⟩)
        "u1").db (some ⟨"a@x.com", "password1"⟩)).resp = .redirect ".index" []
    ∧ sessionGet (login [] (register [] ⟨[], []⟩
        (some ⟨"A@X.Com", "password1", "password1"⟩) "u1").db
        (some ⟨"a@x.com", "password1"⟩)).session "user_id" = some "u1" := by
  have h := login_after_register_case_insensitive [] ⟨[], []⟩
    ⟨"A@X.Com", "password1", "password1"⟩ "u1" "a@x.com" rfl (by decide)
    (by decide) (by decide)
  exact ⟨by decide, by decide, h.1, h.2.2⟩

/-- C8: dereferencing a movie id absent from the collection is a fatal
`TypeError` (from `Movie(**None)`) in the details view, the added
confirmation view, and the (authenticated) edit view — not a handled 404;
the database is untouched at the point of the raise. -/
theorem missing_movie_dereference_raises
    (s : Session) (db : Db) (id e : String) (ef : Option ExtendedMovieFormInput)
    (hmiss : db.movie.find? (fun m => m._id == id) = none)
    (hauth : sessionGet s "email" = some e) :
    movie id s db = .error ("TypeError", db)
    ∧ movie_added id s db = .error ("TypeError", db)
    ∧ edit_movie id ef s db = .error ("TypeError", db) := by
  refine ⟨?_, ?_, ?_⟩ <;>
    simp [movie, movie_added, edit_movie, login_required, edit_movie_body,
      hauth, hmiss]

/-- Witness for C8: id `m1` on an empty movie collection makes all three
views raise `TypeError`. -/
theorem missing_movie_dereference_raises_witness :
    (⟨[], []⟩ : Db).movie.find? (fun m => m._id == "m1") = none
    ∧ movie "m1" [("email", some "e")] ⟨[], []⟩ = .error ("TypeError", ⟨[], []⟩)
    ∧ movie_added "m1" [("email", some "e")] ⟨[], []⟩ = .error ("TypeError", ⟨[], []⟩)
    ∧ edit_movie "m1" none [("email", some "e")] ⟨[], []⟩
        = .error ("TypeError", ⟨[], []⟩) := by
  have h := missing_movie_dereference_raises [("email", some "e")] ⟨[], []⟩
    "m1" "e" none rfl rfl
  exact ⟨rfl, h.1, h.2.1, h.2.2⟩

/-- C9: a successful edit writes back exactly the loaded record with the nine
form-backed fields reassigned: identifier, rating and last-watched are those
of the stored record, the nine fields are the submitted data, and the store
update rewrites only the matching document. -/
theorem edit_overwrites_form_fields_preserves_rest
    (s : Session) (db : Db) (id e : String) (f : ExtendedMovieFormInput)
    (m : MovieDoc) (y : Int)
    (hauth : sessionGet s "email" = some e)
    (hfind : db.movie.find? (fun w => w._id == id) = some m)
    (hy : f.year = some y)
    (hok : movieFormBaseOk f.title f.director y = true) :
    edit_movie id (some f) s db = .ok ⟨.redirect ".movie" [m._id], [], s,
      ⟨db.user, updateOne db.movie (fun w => w._id == m._id) (fun _ => editApply m f y)⟩, []⟩
    ∧ (editApply m f y)._id = m._id
    ∧ (editApply m f y).rating = m.rating
    ∧ (editApply m f y).last_watched = m.last_watched
    ∧ (editApply m f y).title = f.title
    ∧ (editApply m f y).director = f.director
    ∧ (editApply m f y).year = y
    ∧ (editApply m f y).cast = stringListProcess f.cast_raw
    ∧ (editApply m f y).series = stringListProcess f.series_raw
    ∧ (editApply m f y).tags = stringListProcess f.tags_raw
    ∧ (editApply m f y).description = f.description
    ∧ (editApply m f y).video_link = f.video_link
    ∧ (editApply m f y).image_link = f.image_link := by
  refine ⟨?_, rfl, rfl, rfl, rfl, rfl, rfl, rfl, rfl, rfl, rfl, rfl, rfl⟩
  simp [edit_movie, login_required, edit_movie_body, hauth, hfind, hy, hok]

/-- Witness for C9: editing a stored movie with rating 4 and a watch date
keeps id, rating and watch date while the form fields are overwritten. -/
theorem edit_overwrites_form_fields_preserves_rest_witness :
    (⟨[], [⟨"m1", "Old", "OldDir", 1990, ["a"], [], some 7, 4, [], none, none, none⟩]⟩ :
        Db).movie.find? (fun w => w._id == "m1")
      = some ⟨"m1", "Old", "OldDir", 1990, ["a"], [], some 7, 4, [], none, none, none⟩
    ∧ movieFormBaseOk "New" "NewDir" 2001 = true
    ∧ (editApply ⟨"m1", "Old", "OldDir", 1990, ["a"], [], some 7, 4, [], none, none, none⟩
        ⟨"New", "NewDir", some 2001, none, none, none, some "desc", none, none⟩ 2001).rating = 4
    ∧ (editApply ⟨"m1", "Old", "OldDir", 1990, ["a"], [], some 7, 4, [], none, none, none⟩
        ⟨"New", "NewDir", some 2001, none, none, none, some "desc", none, none⟩
        2001).last_watched = some 7
    ∧ (editApply ⟨"m1", "Old", "OldDir", 1990, ["a"], [], some 7, 4, [], none, none, none⟩
        ⟨"New", "NewDir", some 2001, none, none, none, some "desc", none, none⟩ 2001).title
        = "New" := by
  have h := edit_overwrites_form_fields_preserves_rest [("email", some "e")]
    ⟨[], [⟨"m1", "Old", "OldDir", 1990, ["a"], [], some 7, 4, [], none, none, none⟩]⟩
    "m1" "e" ⟨"New", "NewDir", some 2001, none, none, none, some "desc", none, none⟩
    ⟨"m1", "Old", "OldDir", 1990, ["a"], [], some 7, 4, [], none, none, none⟩ 2001
    rfl (by decide) rfl (by decide)
  exact ⟨by decide, by decide, h.2.2.1, h.2.2.2.1, h.2.2.2.2.1⟩

/-- C10: for an authenticated rating request, an absent `rating` query
parameter raises `TypeError` and a non-integer one raises `ValueError`, in
both cases before any store write (the database at the raise is the input
database); an integer parameter of any value — with no range restriction —
is written to the first matching movie record. -/
theorem rate_movie_param_errors_and_unrestricted
    (s : Session) (db : Db) (id e str : String) (r : Int)
    (hauth : sessionGet s "email" = some e) :
    rate_movie id none s db = .error ("TypeError", db)
    ∧ (pyInt str = none → rate_movie id (some str) s db = .error ("ValueError", db))
    ∧ (pyInt str = some r →
        rate_movie id (some str) s db = .ok ⟨.redirect ".movie" [id], [], s,
          ⟨db.user, updateOne db.movie (fun m => m._id == id)
            (fun m => { m with rating := r })⟩, []⟩) := by
  refine ⟨?_, fun hp => ?_, fun hp => ?_⟩
  · simp [rate_movie, login_required, rate_movie_body, hauth]
  · simp [rate_movie, login_required, rate_movie_body, hauth, hp]
  · simp [rate_movie, login_required, rate_movie_body, hauth, hp]

/-- Witness for C10: with one stored movie, an absent parameter raises
`TypeError`, `"abc"` raises `ValueError` leaving the record unchanged, and
`"-99"` is stored although far outside any sensible rating range. -/
theorem rate_movie_param_errors_and_unrestricted_witness :
    pyInt "abc" = none
    ∧ pyInt "-99" = some (-99)
    ∧ rate_movie "m1" none [("email", some "e")]
        ⟨[], [⟨"m1", "T", "D", 2000, [], [], none, 0, [], none, none, none⟩]⟩
      = .error ("TypeError",
          ⟨[], [⟨"m1", "T", "D", 2000, [], [], none, 0, [], none, none, none⟩]⟩)
    ∧ rate_movie "m1" (some "abc") [("email", some "e")]
        ⟨[], [⟨"m1", "T", "D", 2000, [], [], none, 0, [], none, none, none⟩]⟩
      = .error ("ValueError",
          ⟨[], [⟨"m1", "T", "D", 2000, [], [], none, 0, [], none, none, none⟩]⟩)
    ∧ rate_movie "m1" (some "-99") [("email", some "e")]
        ⟨[], [⟨"m1", "T", "D", 2000, [], [], none, 0, [], none, none, none⟩]⟩
      = .ok ⟨.redirect ".movie" ["m1"], [], [("email", some "e")],
          ⟨[], updateOne [⟨"m1", "T", "D", 2000, [], [], none, 0, [], none, none, none⟩]
            (fun m => m._id == "m1") (fun m => { m with rating := -99 })⟩, []⟩ := by
  have h1 := rate_movie_param_errors_and_unrestricted [("email", some "e")]
    ⟨[], [⟨"m1", "T", "D", 2000, [], [], none, 0, [], none, none, none⟩]⟩
    "m1" "e" "abc" 0 rfl
  have h2 := rate_movie_param_errors_and_unrestricted [("email", some "e")]
    ⟨[], [⟨"m1", "T", "D", 2000, [], [], none, 0, [], none, none, none⟩]⟩
    "m1" "e" "-99" (-99) rfl
  exact ⟨by decide, by decide, h1.1, h1.2.1 (by decide), h2.2.2 (by decide)⟩

end MovieWatchlist
